import Mathlib

/-!
Shallow embedding of the MPSC channel in src/src/lib.rs.

The Rust code keeps all mutable data in one `Inner<T>` value behind a
mutex shared (via `Arc<Shared<T>>`) by every `Sender` and the single
`Receiver`.  The embedding makes that shared `Inner` the explicit state:
each operation is a pure function from the state to the new state,
together with a `Bool` recording whether the operation called
`notify_one` on the condition variable.
-/

namespace MPSC

/-- Embeds `Inner<T>` from src/src/lib.rs lines 5-8: the pending-message deque
and the live-sender counter, both protected by the mutex. `VecDeque<T>`
is embedded as a `List T` whose head is the deque front. -/
structure Inner (T : Type) where
  queue : List T
  senders : Nat
deriving Repr, DecidableEq

/-- Embeds `Sender<T>` from lines 16-18: a handle holding a shared reference to
the channel state. -/
structure Sender (T : Type) where
  shared : Inner T
deriving Repr, DecidableEq

/-- Embeds `Receiver<T>` from lines 61-63: the unique consumer handle holding a
shared reference to the same channel state. -/
structure Receiver (T : Type) where
  shared : Inner T
deriving Repr, DecidableEq

/-- Embeds `Sender::send` from lines 52-58: lock, `queue.push_back(msg)`,
unlock, then `available.notify_one()`.  Returns the new shared state and
the signal flag (always `true`: send always notifies one waiter). -/
def Sender.send {T : Type} (s : Inner T) (msg : T) : Inner T × Bool :=
  ({ s with queue := s.queue ++ [msg] }, true)

/-- Embeds `impl Clone for Sender` from lines 20-30: lock, `senders += 1`,
unlock, return a new handle over the same shared state.  Never
notifies, so the signal flag is `false`. -/
def Sender.clone {T : Type} (s : Inner T) : Inner T × Bool :=
  ({ s with senders := s.senders + 1 }, false)

/-- Embeds `impl Drop for Sender` from lines 32-42: lock, `senders -= 1`, then
`was_last = senders == 1` (on the already-decremented counter) and
`notify_one()` exactly when `was_last` holds.  The signal flag is
therefore `true` iff the post-decrement counter equals 1. -/
def Sender.drop {T : Type} (s : Inner T) : Inner T × Bool :=
  let senders' := s.senders - 1
  ({ s with senders := senders' }, senders' == 1)

/-- One pass of the loop body of `Receiver::receive` (lines 73-88):
either the call returns (`ret`) with an optional message and the new
state, or the thread blocks on the condition variable (`wait`) and will
re-run the loop after a wakeup. -/
inductive ReceiveResult (T : Type) where
  | ret (m : Option T) (s : Inner T)
  | wait (s : Inner T)
deriving Repr, DecidableEq

/-- Embeds `Receiver::receive` from lines 73-88, one evaluation of the loop
body under the lock: `queue.pop_front()` yielding `Some(msg)` returns
`Some(msg)`; yielding `None` with `senders == 0` returns `None`;
otherwise the thread waits on `available` and re-checks. -/
def Receiver.receive {T : Type} (s : Inner T) : ReceiveResult T :=
  match s.queue with
  | m :: rest => ReceiveResult.ret (some m) { s with queue := rest }
  | [] =>
    if s.senders = 0 then ReceiveResult.ret none s
    else ReceiveResult.wait s

/-- Embeds `channel` from lines 90-110: builds one `Shared` whose `Inner` has
an empty queue and `senders = 1`, wraps it in an `Arc`, and hands the
same shared state to one `Sender` and one `Receiver`. -/
def channel (T : Type) : Sender T × Receiver T :=
  let shared : Inner T := { queue := [], senders := 1 }
  ({ shared := shared }, { shared := shared })

/-- The consumer-side trace alphabet for the FIFO claim: a send of one
message by the (single) producer handle, or a consumer receive that is
matched by a delivered message. -/
inductive Op (T : Type) where
  | send (m : T)
  | recv
deriving Repr, DecidableEq

/-- The messages sent along a trace, in order. -/
def msgsSent {T : Type} : List (Op T) → List T
  | [] => []
  | Op.send m :: ops => m :: msgsSent ops
  | Op.recv :: ops => msgsSent ops

/-- Runs a trace of sends and matched receives against the shared
state, threading `Sender.send` and `Receiver.receive` and accumulating
the messages the consumer received.  A `recv` that would not return a
message (closure sentinel or a blocking wait) falls outside the claim's
scenario and yields `none`. -/
def runOps {T : Type} : Inner T → List T → List (Op T) → Option (Inner T × List T)
  | s, recvd, [] => some (s, recvd)
  | s, recvd, Op.send m :: ops => runOps (Sender.send s m).1 recvd ops
  | s, recvd, Op.recv :: ops =>
    match Receiver.receive s with
    | ReceiveResult.ret (some m) s' => runOps s' (recvd ++ [m]) ops
    | ReceiveResult.ret none _ => none
    | ReceiveResult.wait _ => none

/-- Handle-lifecycle alphabet for the reference-counting claims: clone
an existing live producer handle, or destroy (drop) a live one. -/
inductive HOp where
  | clone
  | dropS
deriving Repr, DecidableEq

/-- Runs a handle-lifecycle trace.  The first component is the ghost
count of live `Sender` handles; the second mirrors the `senders` field
as the code mutates it (`+= 1` in `Clone`, `-= 1` in `Drop`).  A drop
is only legal when a live handle exists to be destroyed; an illegal
trace yields `none`. -/
def runHandles : Nat → Nat → List HOp → Option (Nat × Nat)
  | handles, senders, [] => some (handles, senders)
  | handles, senders, HOp.clone :: ops => runHandles (handles + 1) (senders + 1) ops
  | handles, senders, HOp.dropS :: ops =>
    if handles = 0 then none
    else runHandles (handles - 1) (senders - 1) ops

/-- Rendering of `Debug` for `VecDeque<usize>` as Rust's `{:?}`
formatter prints it: comma-and-space separated items. -/
def fmtItems : List Nat → String
  | [] => ""
  | [x] => toString x
  | x :: xs => toString x ++ ", " ++ fmtItems xs

/-- Full `Debug` rendering of the deque, brackets included. -/
def fmtDeque (q : List Nat) : String :=
  "[" ++ fmtItems q ++ "]"

/-- Embeds `impl Display for Sender` from lines 44-50: locks, reads the
counter and the queue, and writes the counter then the deque snapshot
(the Rust format string labels the counter `Sender:` and the queue
`Deque:`).  Returns the rendered string and the (unchanged) state. -/
def Sender.display (s : Inner Nat) : String × Inner Nat :=
  ("Sender: " ++ toString s.senders ++ ", Deque: " ++ fmtDeque s.queue, s)

/-- Embeds `impl Display for Receiver` from lines 65-71: identical body to the
sender's `Display` impl, including the `Sender:` label. -/
def Receiver.display (s : Inner Nat) : String × Inner Nat :=
  ("Sender: " ++ toString s.senders ++ ", Deque: " ++ fmtDeque s.queue, s)

/-- Invariant of the handle-lifecycle machine: the `senders` counter
tracks the ghost count of live handles. -/
theorem runHandles_eq (ops : List HOp) :
    ∀ h c h' c', runHandles h c ops = some (h', c') → c = h → c' = h' := by
  induction ops with
  | nil =>
    intro h c h' c' hrun hc
    simp [runHandles] at hrun
    omega
  | cons op ops ih =>
    intro h c h' c' hrun hc
    cases op with
    | clone =>
      exact ih (h + 1) (c + 1) h' c' hrun (by omega)
    | dropS =>
      by_cases hz : h = 0
      · simp [runHandles, hz] at hrun
      · simp only [runHandles, if_neg hz] at hrun
        exact ih (h - 1) (c - 1) h' c' hrun (by omega)

/-- Accumulator-general FIFO invariant of the trace machine: the
messages received so far followed by the messages still queued equal
the initially received plus initially queued plus all messages sent. -/
theorem runOps_fifo {T : Type} (ops : List (Op T)) :
    ∀ (s : Inner T) (recvd : List T) (s' : Inner T) (recvd' : List T),
      runOps s recvd ops = some (s', recvd') →
      recvd' ++ s'.queue = recvd ++ s.queue ++ msgsSent ops := by
  induction ops with
  | nil =>
    intro s recvd s' recvd' hrun
    simp [runOps] at hrun
    simp [hrun.1, hrun.2, msgsSent]
  | cons op ops ih =>
    intro s recvd s' recvd' hrun
    cases op with
    | send m =>
      have := ih (Sender.send s m).1 recvd s' recvd' hrun
      simpa [Sender.send, msgsSent, List.append_assoc] using this
    | recv =>
      cases hq : s.queue with
      | nil =>
        by_cases hz : s.senders = 0 <;>
          simp [runOps, Receiver.receive, hq, hz] at hrun
      | cons m rest =>
        simp only [runOps, Receiver.receive, hq] at hrun
        have := ih { s with queue := rest } (recvd ++ [m]) s' recvd' hrun
        simpa [msgsSent, hq, List.append_assoc] using this

/-- C1: for every channel state, `receive` returns the head (oldest)
queued message when the queue is non-empty, returns the `none` sentinel
exactly when the queue is empty and the live-sender count is 0, and
otherwise (empty queue, senders remaining) waits on the condition
variable to re-check rather than returning. -/
theorem receive_spec {T : Type} (s : Inner T) :
    (∀ m rest, s.queue = m :: rest →
      Receiver.receive s = ReceiveResult.ret (some m) { s with queue := rest }) ∧
    ((∃ u, Receiver.receive s = ReceiveResult.ret (none : Option T) u) ↔
      (s.queue = [] ∧ s.senders = 0)) ∧
    (s.queue = [] → s.senders ≠ 0 → Receiver.receive s = ReceiveResult.wait s) := by
  refine ⟨?_, ⟨?_, ?_⟩, ?_⟩
  · intro m rest hq
    simp [Receiver.receive, hq]
  · rintro ⟨u, hu⟩
    cases hq : s.queue with
    | nil =>
      by_cases hz : s.senders = 0
      · exact ⟨rfl, hz⟩
      · simp [Receiver.receive, hq, hz] at hu
    | cons m rest => simp [Receiver.receive, hq] at hu
  · rintro ⟨hq, hz⟩
    exact ⟨s, by simp [Receiver.receive, hq, hz]⟩
  · intro hq hz
    simp [Receiver.receive, hq, hz]

/-- Witness for C1: on the state with queue `[5, 7]` and two senders,
`receive` returns the head message 5 and leaves `[7]` queued. -/
theorem receive_spec_witness :
    Receiver.receive (T := Nat) { queue := [5, 7], senders := 2 } =
      ReceiveResult.ret (some 5) { queue := [7], senders := 2 } :=
  (receive_spec { queue := [5, 7], senders := 2 }).1 5 [7] rfl

/-- C2 (code evaluated at the failing input): dropping the last live
sender (counter 1 before the drop, 0 after) does NOT notify the
consumer, while dropping a sender that leaves one other live sender
(counter 2 before, 1 after) DOES notify — the `was_last` test in
`impl Drop for Sender` compares the post-decrement counter with 1
instead of 0. -/
theorem drop_signal_off_by_one :
    (Sender.drop (T := Nat) { queue := [], senders := 1 }).2 = false ∧
    (Sender.drop (T := Nat) { queue := [], senders := 2 }).2 = true :=
  ⟨rfl, rfl⟩

/-- C3: over any trace of sends by the single producer handle and
matched receives by the consumer, starting from an empty queue, the
messages received (in order) followed by the messages still queued are
exactly the messages sent in send order; in particular when every send
has been matched by a receive, the consumer got exactly the sent
sequence — FIFO, no loss, no duplication. -/
theorem send_receive_fifo {T : Type} (c : Nat) (ops : List (Op T))
    (s' : Inner T) (recvd : List T)
    (hrun : runOps { queue := [], senders := c } [] ops = some (s', recvd)) :
    recvd ++ s'.queue = msgsSent ops ∧
      (s'.queue = [] → recvd = msgsSent ops) := by
  have hmain := runOps_fifo ops { queue := [], senders := c } [] s' recvd hrun
  simp only [List.append_nil, List.nil_append] at hmain
  exact ⟨hmain, fun he => by simpa [he] using hmain⟩

/-- Witness for C3: sending 1 then 2 and receiving twice yields the
received list `[1, 2]` with an empty residual queue. -/
theorem send_receive_fifo_witness :
    ([1, 2] : List Nat) ++ (Inner.mk ([] : List Nat) 1).queue =
        msgsSent [Op.send 1, Op.send 2, Op.recv, Op.recv] ∧
      ((Inner.mk ([] : List Nat) 1).queue = [] →
        ([1, 2] : List Nat) = msgsSent [Op.send 1, Op.send 2, Op.recv, Op.recv]) :=
  send_receive_fifo 1 [Op.send 1, Op.send 2, Op.recv, Op.recv]
    (Inner.mk [] 1) [1, 2] (by decide)

/-- C4: `channel` always succeeds, and the sender handle and receiver
handle it returns are bound to the same fresh shared state, whose queue
is empty and whose sender count is 1. -/
theorem channel_spec (T : Type) :
    (channel T).1.shared = (channel T).2.shared ∧
    (channel T).1.shared.queue = [] ∧
    (channel T).1.shared.senders = 1 :=
  ⟨rfl, rfl, rfl⟩

/-- C5: after any legal sequence of clone and drop operations starting
from a fresh channel (one handle, counter 1), the `senders` counter
equals the number of live producer handles; hence the counter stays at
least 1 while a handle is live and reaches 0 only when all handles have
been destroyed. -/
theorem senders_eq_live_handles (ops : List HOp) (h c : Nat)
    (hrun : runHandles 1 1 ops = some (h, c)) : c = h :=
  runHandles_eq ops 1 1 h c hrun rfl

/-- Witness for C5: cloning once and then dropping the original leaves
one live handle and counter 1 (the channel stays open). -/
theorem senders_eq_live_handles_witness :
    runHandles 1 1 [HOp.clone, HOp.dropS] = some (1, 1) ∧ (1 : Nat) = 1 :=
  ⟨by decide, senders_eq_live_handles [HOp.clone, HOp.dropS] 1 1 (by decide)⟩

/-- C6: `send` appends the message to the tail of the queue and changes
nothing else — the previously queued messages keep their relative order
as a prefix, the sender count is unchanged — and it always succeeds
(total function, notifying one waiter), with no dependence on a
consumer existing. -/
theorem send_spec {T : Type} (s : Inner T) (msg : T) :
    (Sender.send s msg).1.queue = s.queue ++ [msg] ∧
    (Sender.send s msg).1.senders = s.senders ∧
    (Sender.send s msg).2 = true :=
  ⟨rfl, rfl, rfl⟩

/-- C7: `clone` increments the sender count by exactly one, leaves the
queue unchanged, and does not notify the consumer (the new handle
shares the same single shared state the model threads through). -/
theorem clone_spec {T : Type} (s : Inner T) :
    (Sender.clone s).1.senders = s.senders + 1 ∧
    (Sender.clone s).1.queue = s.queue ∧
    (Sender.clone s).2 = false :=
  ⟨rfl, rfl, rfl⟩

/-- C8: the `drop_tx` scenario — construct a channel, clone the
producer, send 443 from the clone, drop the original, send 4434 from
the clone, drop the clone — leaves the state with queue `[443, 4434]`
and counter 0, and three successive receives then return `some 443`,
`some 4434`, and the closed sentinel `none`. -/
theorem drop_tx_scenario :
    (Sender.drop (Sender.send (Sender.drop
        (Sender.send (Sender.clone (channel Nat).1.shared).1 443).1).1 4434).1).1 =
      Inner.mk [443, 4434] 0 ∧
    Receiver.receive (Inner.mk ([443, 4434] : List Nat) 0) =
      ReceiveResult.ret (some 443) (Inner.mk [4434] 0) ∧
    Receiver.receive (Inner.mk ([4434] : List Nat) 0) =
      ReceiveResult.ret (some 4434) (Inner.mk [] 0) ∧
    Receiver.receive (Inner.mk ([] : List Nat) 0) =
      ReceiveResult.ret none (Inner.mk [] 0) := by
  decide

/-- C9: whenever a producer handle is destroyed after any legal
sequence of clone and drop operations (legal: the destroyed handle is
live, so at least one live handle exists), the `senders` counter is at
least 1 immediately before the decrement, so the unsigned decrement in
`Drop` never underflows. -/
theorem drop_no_underflow (p : List HOp) (h c : Nat)
    (hrun : runHandles 1 1 p = some (h, c)) (hlive : 1 ≤ h) : 1 ≤ c := by
  have hc := runHandles_eq p 1 1 h c hrun rfl
  omega

/-- Witness for C9: after one clone there are two live handles and the
counter is 2, so a drop decrements from at least 1. -/
theorem drop_no_underflow_witness :
    runHandles 1 1 [HOp.clone] = some (2, 2) ∧ (1 : Nat) ≤ 2 ∧ (1 : Nat) ≤ 2 :=
  ⟨by decide, by decide, drop_no_underflow [HOp.clone] 2 2 (by decide) (by decide)⟩

/-- C10: for every shared state, the receiver's `Display` rendering
produces exactly the same string as the sender's — both label the
counter `Sender:` and then print the deque — and neither rendering
changes the queue or the sender count. -/
theorem display_eq (s : Inner Nat) :
    Receiver.display s = Sender.display s ∧
    (Sender.display s).2 = s ∧
    (Receiver.display s).2 = s :=
  ⟨rfl, rfl, rfl⟩

end MPSC
